import Mathlib

/-!
Shallow embedding of the earthquake-monitor notification pipeline
(src/earthquake-monitor) and proofs about the spec claims.

Numeric values that the Python code holds as floats (magnitudes, depths,
coordinates, POSIX timestamps in seconds) are embedded as rationals; all
comparisons and arithmetic in the relevant code paths are order and field
operations that the rationals model exactly.
-/

set_option maxHeartbeats 1000000

/-- Embedding of MagnitudeScale (src/domain/entities/magnitude.py). -/
inductive MagnitudeScale where
  | richter
  | moment
  | bodyWave
  | surfaceWave
deriving DecidableEq, Repr

/-- Embedding of the Magnitude value object (src/domain/entities/magnitude.py).
Construction validates 0 <= value <= 12; the validity predicate is kept
separate so the operations stay total functions as in the source. -/
structure Magnitude where
  value : ℚ
  scale : MagnitudeScale := MagnitudeScale.moment
deriving DecidableEq, Repr

/-- Validation performed in Magnitude.__post_init__. -/
def Magnitude.valid (m : Magnitude) : Prop := 0 ≤ m.value ∧ m.value ≤ 12

/-- Magnitude.is_significant: true iff value >= 5.0. -/
def Magnitude.is_significant (m : Magnitude) : Bool := 5 ≤ m.value

/-- Magnitude.get_alert_level: CRITICAL if >= 7.0, HIGH if >= 5.5,
MEDIUM if >= 4.0, else LOW. The 5.5 threshold is written mkRat 11 2, the
normal form of the float literal 5.5. -/
def Magnitude.get_alert_level (m : Magnitude) : String :=
  if 7 ≤ m.value then "CRITICAL"
  else if mkRat 11 2 ≤ m.value then "HIGH"
  else if 4 ≤ m.value then "MEDIUM"
  else "LOW"

/-- Embedding of the Location value object (src/domain/entities/location.py).
The Haversine distance and the hardcoded city list behind
is_near_populated_area use floating point trigonometry; following the spec,
the populated-area test is treated as a pluggable boolean predicate on
locations wherever it is consumed. -/
structure Location where
  latitude : ℚ
  longitude : ℚ
  depth : ℚ
deriving DecidableEq, Repr

/-- Validation performed in Location.__post_init__. -/
def Location.valid (l : Location) : Prop :=
  -90 ≤ l.latitude ∧ l.latitude ≤ 90 ∧
  -180 ≤ l.longitude ∧ l.longitude ≤ 180 ∧ 0 ≤ l.depth

/-- Embedding of the Earthquake entity (src/domain/entities/earthquake.py).
The dataclass declares location, magnitude, occurred_at, source and
earthquake_id; external_id, raw_data and title are attributes some callers
attach dynamically (hasattr checks in the repository and the ingest use
case), embedded as Option fields defaulting to none. -/
structure Earthquake where
  location : Location
  magnitude : Magnitude
  occurredAt : ℚ
  source : String := "USGS"
  earthquakeId : String
  isReviewed : Bool := false
  externalId : Option String := none
  title : Option String := none
deriving DecidableEq, Repr

/-- Python truthiness of the optional external_id attribute:
hasattr(earthquake, "external_id") and earthquake.external_id. -/
def truthyExternalId : Option String → Bool
  | some s => !s.isEmpty
  | none => false

/-- Earthquake.requires_immediate_alert, with the populated-area test as a
pluggable predicate on the location (spec section 6). -/
def Earthquake.requires_immediate_alert (nearPop : Location → Bool)
    (e : Earthquake) : Bool :=
  e.magnitude.is_significant && nearPop e.location

/-- Earthquake.calculate_affected_radius_km:
base_radius = magnitude.value * 20; depth_factor = max(0.1, 1 - depth/100);
result = base_radius * depth_factor. -/
def Earthquake.calculate_affected_radius_km (e : Earthquake) : ℚ :=
  (e.magnitude.value * 20) * max ((1 : ℚ)/10) (1 - e.location.depth / 100)

/-- C8: the severity classifier is a pure total function: for every severity
value v in [0,12], the level is LOW if v < 4.0, MEDIUM if 4.0 <= v < 5.5,
HIGH if 5.5 <= v < 7.0, CRITICAL if v >= 7.0 (boundary values belong to the
upper bracket), and is_significant is true iff v >= 5.0. -/
theorem severity_classifier_brackets (m : Magnitude) (h : m.valid) :
    (m.value < 4 → m.get_alert_level = "LOW") ∧
    (4 ≤ m.value ∧ m.value < (11 : ℚ)/2 → m.get_alert_level = "MEDIUM") ∧
    ((11 : ℚ)/2 ≤ m.value ∧ m.value < 7 → m.get_alert_level = "HIGH") ∧
    (7 ≤ m.value → m.get_alert_level = "CRITICAL") ∧
    (m.is_significant = true ↔ 5 ≤ m.value) := by
  obtain ⟨h0, h12⟩ := h
  unfold Magnitude.get_alert_level Magnitude.is_significant
  have h52 : (mkRat 11 2 : ℚ) = 11/2 := by
    rw [Rat.mkRat_eq_div]
    norm_num
  rw [h52]
  refine ⟨?_, ?_, ?_, ?_, ?_⟩
  · intro hv
    rw [if_neg (by linarith), if_neg (by linarith), if_neg (by linarith)]
  · rintro ⟨h4, h55⟩
    rw [if_neg (by linarith), if_neg (by linarith), if_pos h4]
  · rintro ⟨h55, h7⟩
    rw [if_neg (by linarith), if_pos h55]
  · intro h7
    rw [if_pos h7]
  · exact decide_eq_true_iff

/-- Witness for C8: evaluates the classifier at the concrete magnitude 6.0. -/
theorem severity_classifier_brackets_witness :
    ({ value := 6 : Magnitude }.get_alert_level = "HIGH") ∧
    ({ value := 6 : Magnitude }.is_significant = true) := by
  have h := severity_classifier_brackets { value := 6 } (by constructor <;> norm_num)
  exact ⟨h.2.2.1 (by norm_num), h.2.2.2.2.mpr (by norm_num)⟩

/-!
Rate/Throttle Engine: WebSocketFilterService
(src/application/services/websocket_filter_service.py).

State: _client_last_broadcast (dict with .get default 0) and
_client_earthquake_count (client -> minute bucket -> count; an absent bucket
reads as 0 through .get(minute_key, 0), so buckets are embedded as a
total function to Nat where deletion of a bucket sets it back to 0).
-/

/-- Configuration of WebSocketFilterService.__init__, read from
environment variables with the defaults shown in the source. -/
structure FilterConfig where
  minMagnitudeThreshold : ℚ
  maxEarthquakesPerMinute : ℕ
  throttleIntervalSeconds : ℚ
  maxAgeMinutes : ℚ
deriving Repr

/-- Default configuration values WEBSOCKET_MIN_MAGNITUDE=2.0,
WEBSOCKET_MAX_PER_MINUTE=10, WEBSOCKET_THROTTLE_SECONDS=5.0,
WEBSOCKET_MAX_AGE_MINUTES=60. -/
def defaultFilterConfig : FilterConfig :=
  { minMagnitudeThreshold := 2
    maxEarthquakesPerMinute := 10
    throttleIntervalSeconds := 5
    maxAgeMinutes := 60 }

/-- Mutable state of WebSocketFilterService. -/
structure FilterState where
  lastBroadcast : String → ℚ
  counts : String → Int → ℕ

/-- Fresh service state: both dicts empty (reads default to 0). -/
def initFilterState : FilterState :=
  { lastBroadcast := fun _ => 0, counts := fun _ _ => 0 }

/-- Minute bucket key: str(int(current_time // 60)) in the source; the key
content is the floor of time/60. -/
def minuteKey (t : ℚ) : Int := ⌊t / 60⌋

/-- WebSocketFilterService._passes_magnitude_filter. -/
def passesMagnitudeFilter (cfg : FilterConfig) (e : Earthquake) : Bool :=
  cfg.minMagnitudeThreshold ≤ e.magnitude.value

/-- WebSocketFilterService._passes_age_filter: age now - occurred_at is at
most max_age_minutes (converted to seconds). -/
def passesAgeFilter (cfg : FilterConfig) (e : Earthquake) (now : ℚ) : Bool :=
  now - e.occurredAt ≤ cfg.maxAgeMinutes * 60

/-- WebSocketFilterService._passes_throttle_filter:
current_time - last_broadcast >= throttle_interval_seconds, where the last
broadcast time defaults to 0. -/
def passesThrottleFilter (cfg : FilterConfig) (st : FilterState) (c : String)
    (now : ℚ) : Bool :=
  cfg.throttleIntervalSeconds ≤ now - st.lastBroadcast c

/-- Lazy pruning inside _passes_rate_limit_filter: for the requesting client,
delete every minute bucket strictly below current_minute - 2. -/
def pruneClient (st : FilterState) (c : String) (currentMinute : Int) :
    FilterState :=
  { st with
    counts := fun c2 m =>
      if c2 = c ∧ m < currentMinute - 2 then 0 else st.counts c2 m }

/-- The comparison at the end of _passes_rate_limit_filter:
current minute count < max_earthquakes_per_minute. -/
def passesRateLimitCheck (cfg : FilterConfig) (st : FilterState) (c : String)
    (now : ℚ) : Bool :=
  st.counts c (minuteKey now) < cfg.maxEarthquakesPerMinute

/-- WebSocketFilterService._update_client_tracking: set the client last
broadcast time to now and increment the current minute bucket. -/
def updateClientTracking (st : FilterState) (c : String) (now : ℚ) :
    FilterState :=
  { lastBroadcast := Function.update st.lastBroadcast c now
    counts := fun c2 m =>
      if c2 = c ∧ m = minuteKey now then st.counts c2 m + 1 else st.counts c2 m }

/-- WebSocketFilterService.should_broadcast_earthquake: the four checks run
in order with short circuit; pruning happens inside the rate limit check;
tracking is updated only when every check passes. Returns the decision and
the state after the call. -/
def shouldBroadcastEarthquake (cfg : FilterConfig) (st : FilterState)
    (e : Earthquake) (c : String) (now : ℚ) : Bool × FilterState :=
  if passesMagnitudeFilter cfg e then
    if passesAgeFilter cfg e now then
      if passesThrottleFilter cfg st c now then
        if passesRateLimitCheck cfg (pruneClient st c (minuteKey now)) c now then
          (true, updateClientTracking (pruneClient st c (minuteKey now)) c now)
        else (false, pruneClient st c (minuteKey now))
      else (false, st)
    else (false, st)
  else (false, st)

/-- WebSocketFilterService.should_broadcast_alert: only the hardcoded
magnitude >= 4.0 check; on success client tracking is updated and the alert
is admitted, with no throttle, age or rate limit check. -/
def shouldBroadcastAlert (cfg : FilterConfig) (st : FilterState)
    (e : Earthquake) (c : String) (now : ℚ) : Bool × FilterState :=
  if e.magnitude.value < 4 then (false, st)
  else (true, updateClientTracking st c now)

/-- A candidate notification evaluated by the engine for one subscriber:
either a standard earthquake notification or a high magnitude alert, with
the subscriber id and the wall clock time of the call. -/
inductive FilterReq where
  | eqEvent (e : Earthquake) (c : String) (t : ℚ)
  | alertEvent (e : Earthquake) (c : String) (t : ℚ)

/-- The wall clock time of a request. -/
def FilterReq.time : FilterReq → ℚ
  | .eqEvent _ _ t => t
  | .alertEvent _ _ t => t

/-- The subscriber of a request. -/
def FilterReq.client : FilterReq → String
  | .eqEvent _ c _ => c
  | .alertEvent _ c _ => c

/-- One engine call: dispatch to the matching filter method. -/
def filterStep (cfg : FilterConfig) (st : FilterState) :
    FilterReq → Bool × FilterState
  | .eqEvent e c t => shouldBroadcastEarthquake cfg st e c t
  | .alertEvent e c t => shouldBroadcastAlert cfg st e c t

/-- State after a sequence of engine calls. -/
def runFilter (cfg : FilterConfig) (st : FilterState) :
    List FilterReq → FilterState
  | [] => st
  | r :: rs => runFilter cfg (filterStep cfg st r).2 rs

/-- The admission decisions of a sequence of engine calls, in order. -/
def filterDecisions (cfg : FilterConfig) (st : FilterState) :
    List FilterReq → List Bool
  | [] => []
  | r :: rs => (filterStep cfg st r).1 :: filterDecisions cfg (filterStep cfg st r).2 rs

/-- Timestamps of a request list are non decreasing and bounded below. -/
def Chron : ℚ → List FilterReq → Prop
  | _, [] => True
  | v, r :: rs => v ≤ r.time ∧ Chron r.time rs

/-- Whether a request is a standard notification for client c whose
timestamp falls in minute bucket m. -/
def FilterReq.isStdFor (r : FilterReq) (c : String) (m : Int) : Bool :=
  match r with
  | .eqEvent _ c2 t => c2 = c ∧ minuteKey t = m
  | .alertEvent _ _ _ => false

/-- Number of admitted standard notifications for client c with timestamp in
minute bucket m over a run. -/
def admittedInBucket (cfg : FilterConfig) (st : FilterState) (c : String)
    (m : Int) : List FilterReq → ℕ
  | [] => 0
  | r :: rs =>
      (if (filterStep cfg st r).1 && r.isStdFor c m then 1 else 0) +
        admittedInBucket cfg (filterStep cfg st r).2 c m rs

/-- Concrete quake used by several runs: magnitude 5.0, shallow, occurred at
time 0. -/
def quakeFive : Earthquake :=
  { location := { latitude := 10, longitude := 20, depth := 10 }
    magnitude := { value := 5 }
    occurredAt := 0
    earthquakeId := "Q5" }

/-- Concrete quake of magnitude 3.0 (passes the standard filter threshold
2.0, fails the alert threshold 4.0). -/
def quakeThree : Earthquake :=
  { location := { latitude := 10, longitude := 20, depth := 10 }
    magnitude := { value := 3 }
    occurredAt := 0
    earthquakeId := "Q3" }

/-- Updating tracking for one client either leaves the last broadcast time
of another client unchanged or sets it to the update time. -/
theorem updateClientTracking_lastBroadcast (st : FilterState) (c2 : String)
    (now : ℚ) (c : String) :
    (updateClientTracking st c2 now).lastBroadcast c = st.lastBroadcast c ∨
    (updateClientTracking st c2 now).lastBroadcast c = now := by
  by_cases h : c = c2
  · subst h
    right
    simp [updateClientTracking]
  · left
    simp [updateClientTracking, Function.update_apply, h]

/-- Pruning never touches the last broadcast map. -/
theorem pruneClient_lastBroadcast (st : FilterState) (c2 : String) (cm : Int) :
    (pruneClient st c2 cm).lastBroadcast = st.lastBroadcast := rfl

/-- Any engine call leaves the last broadcast time of a client unchanged or
sets it to the call time. -/
theorem filterStep_lastBroadcast (cfg : FilterConfig) (st : FilterState)
    (r : FilterReq) (c : String) :
    (filterStep cfg st r).2.lastBroadcast c = st.lastBroadcast c ∨
    (filterStep cfg st r).2.lastBroadcast c = r.time := by
  cases r with
  | eqEvent e c2 t =>
      show (shouldBroadcastEarthquake cfg st e c2 t).2.lastBroadcast c = _ ∨
        (shouldBroadcastEarthquake cfg st e c2 t).2.lastBroadcast c = t
      unfold shouldBroadcastEarthquake
      split_ifs with h1 h2 h3 h4
      · simpa [pruneClient_lastBroadcast] using
          updateClientTracking_lastBroadcast (pruneClient st c2 (minuteKey t)) c2 t c
      · left; rfl
      · left; rfl
      · left; rfl
      · left; rfl
  | alertEvent e c2 t =>
      show (shouldBroadcastAlert cfg st e c2 t).2.lastBroadcast c = _ ∨
        (shouldBroadcastAlert cfg st e c2 t).2.lastBroadcast c = t
      unfold shouldBroadcastAlert
      split_ifs with h1
      · left; rfl
      · exact updateClientTracking_lastBroadcast st c2 t c

/-- Over a run whose calls all happen at or after time v, a last broadcast
time already at or above v stays at or above v after the run. -/
theorem runFilter_lastBroadcast_ge (cfg : FilterConfig) (c : String) (v : ℚ) :
    ∀ (rs : List FilterReq) (st : FilterState),
      (∀ r ∈ rs, v ≤ r.time) → v ≤ st.lastBroadcast c →
      v ≤ (runFilter cfg st rs).lastBroadcast c := by
  intro rs
  induction rs with
  | nil => intro st _ hst; exact hst
  | cons r rs ih =>
      intro st hall hst
      have hstep := filterStep_lastBroadcast cfg st r c
      apply ih (filterStep cfg st r).2 (fun x hx => hall x (List.mem_cons_of_mem _ hx))
      rcases hstep with h | h
      · rw [h]; exact hst
      · rw [h]; exact hall r (List.mem_cons_self _ _)

/-- An admitted standard notification passed the throttle check against the
pre-call state, and the post-call state records the call time as the last
broadcast time of the client. -/
theorem shouldBroadcastEarthquake_admitted (cfg : FilterConfig)
    (st : FilterState) (e : Earthquake) (c : String) (now : ℚ)
    (h : (shouldBroadcastEarthquake cfg st e c now).1 = true) :
    passesThrottleFilter cfg st c now = true ∧
    (shouldBroadcastEarthquake cfg st e c now).2.lastBroadcast c = now := by
  unfold shouldBroadcastEarthquake at h ⊢
  split_ifs at h ⊢ with h1 h2 h3 h4
  · exact ⟨h3, by simp [updateClientTracking, pruneClient_lastBroadcast]⟩
  all_goals exact absurd h (by simp)

/-- C2 counterexample: with the default configuration two high severity
alerts for the same subscriber, one second apart, are both admitted by the
engine although one second is below the five second throttle interval. -/
theorem throttle_invariant_cex :
    (shouldBroadcastAlert defaultFilterConfig initFilterState quakeFive "a" 100).1
      = true ∧
    (shouldBroadcastAlert defaultFilterConfig
        (shouldBroadcastAlert defaultFilterConfig initFilterState quakeFive "a" 100).2
        quakeFive "a" 101).1 = true ∧
    ((101 : ℚ) - 100 < defaultFilterConfig.throttleIntervalSeconds) := by
  refine ⟨rfl, rfl, by norm_num [defaultFilterConfig]⟩

/-- C2 amended: for every subscriber, no two STANDARD notifications admitted
by the engine for that subscriber are separated by less than
throttleIntervalSeconds, provided wall clock time does not run backwards
between the two calls; high severity alerts bypass the throttle entirely
(see the counterexample). -/
theorem throttle_spacing_standard (cfg : FilterConfig) (st0 : FilterState)
    (rs1 rs2 : List FilterReq) (e1 e2 : Earthquake) (c : String) (t1 t2 : ℚ)
    (hadm1 : (filterStep cfg (runFilter cfg st0 rs1)
      (FilterReq.eqEvent e1 c t1)).1 = true)
    (hadm2 : (filterStep cfg
      (runFilter cfg
        (filterStep cfg (runFilter cfg st0 rs1) (FilterReq.eqEvent e1 c t1)).2 rs2)
      (FilterReq.eqEvent e2 c t2)).1 = true)
    (hchron : ∀ r ∈ rs2, t1 ≤ r.time) :
    cfg.throttleIntervalSeconds ≤ t2 - t1 := by
  have h1 := shouldBroadcastEarthquake_admitted cfg (runFilter cfg st0 rs1) e1 c t1 hadm1
  have hmid :
      t1 ≤ (runFilter cfg
        (filterStep cfg (runFilter cfg st0 rs1) (FilterReq.eqEvent e1 c t1)).2
        rs2).lastBroadcast c := by
    apply runFilter_lastBroadcast_ge cfg c t1 rs2 _ hchron
    exact le_of_eq h1.2.symm
  have h2 := shouldBroadcastEarthquake_admitted cfg
    (runFilter cfg
      (filterStep cfg (runFilter cfg st0 rs1) (FilterReq.eqEvent e1 c t1)).2 rs2)
    e2 c t2 hadm2
  have hth := h2.1
  unfold passesThrottleFilter at hth
  have hle : cfg.throttleIntervalSeconds ≤
      t2 - (runFilter cfg
        (filterStep cfg (runFilter cfg st0 rs1) (FilterReq.eqEvent e1 c t1)).2
        rs2).lastBroadcast c := by
    exact_mod_cast of_decide_eq_true hth
  linarith

/-- Witness for C2 amended: two standard notifications admitted exactly five
seconds apart with the default configuration. -/
theorem throttle_spacing_standard_witness :
    defaultFilterConfig.throttleIntervalSeconds ≤ (105 : ℚ) - 100 := by
  have hk100 : minuteKey 100 = 1 := by
    unfold minuteKey
    rw [Int.floor_eq_iff] <;> norm_num
  have hk105 : minuteKey 105 = 1 := by
    unfold minuteKey
    rw [Int.floor_eq_iff] <;> norm_num
  apply throttle_spacing_standard defaultFilterConfig initFilterState
    [] [] quakeThree quakeThree "a" 100 105
  · show (shouldBroadcastEarthquake defaultFilterConfig initFilterState
      quakeThree "a" 100).1 = true
    norm_num [shouldBroadcastEarthquake, passesMagnitudeFilter, passesAgeFilter,
      passesThrottleFilter, passesRateLimitCheck, pruneClient, updateClientTracking,
      defaultFilterConfig, initFilterState, quakeThree]
  · show (shouldBroadcastEarthquake defaultFilterConfig
      (shouldBroadcastEarthquake defaultFilterConfig initFilterState
        quakeThree "a" 100).2 quakeThree "a" 105).1 = true
    norm_num [shouldBroadcastEarthquake, passesMagnitudeFilter, passesAgeFilter,
      passesThrottleFilter, passesRateLimitCheck, pruneClient, updateClientTracking,
      defaultFilterConfig, initFilterState, quakeThree, hk100, hk105,
      Function.update_apply]
  · intro r hr; cases hr

/-- Minute bucket keys are monotone in time. -/
theorem minuteKey_mono {a b : ℚ} (h : a ≤ b) : minuteKey a ≤ minuteKey b :=
  Int.floor_le_floor ((div_le_div_right (by norm_num)).mpr h)

/-- Counts after pruning, pointwise. -/
theorem pruneClient_counts (st : FilterState) (cp : String) (cm : Int)
    (c : String) (m : Int) :
    (pruneClient st cp cm).counts c m =
      if c = cp ∧ m < cm - 2 then 0 else st.counts c m := rfl

/-- Counts after a tracking update, pointwise. -/
theorem updateClientTracking_counts (st : FilterState) (cp : String) (now : ℚ)
    (c : String) (m : Int) :
    (updateClientTracking st cp now).counts c m =
      if c = cp ∧ m = minuteKey now then st.counts c m + 1 else st.counts c m := rfl

/-- A tracking update never decreases any bucket count. -/
theorem updateClientTracking_counts_ge (st : FilterState) (cp : String)
    (now : ℚ) (c : String) (m : Int) :
    st.counts c m ≤ (updateClientTracking st cp now).counts c m := by
  rw [updateClientTracking_counts]
  split_ifs <;> omega

/-- Once the run clock has moved past minute bucket m, no further standard
notification lands in bucket m. -/
theorem admittedInBucket_eq_zero (cfg : FilterConfig) (c : String) (m : Int) :
    ∀ (rs : List FilterReq) (st : FilterState) (v : ℚ),
      Chron v rs → m < minuteKey v → admittedInBucket cfg st c m rs = 0 := by
  intro rs
  induction rs with
  | nil => intro st v _ _; rfl
  | cons r rs ih =>
      intro st v hch hm
      obtain ⟨hv, hch2⟩ := hch
      have hmt : m < minuteKey r.time := lt_of_lt_of_le hm (minuteKey_mono hv)
      have hstd : r.isStdFor c m = false := by
        cases r with
        | eqEvent e c2 t =>
            simp only [FilterReq.isStdFor, decide_eq_false_iff_not]
            rintro ⟨-, h⟩
            simp only [FilterReq.time] at hmt
            omega
        | alertEvent e c2 t => rfl
      show (if (filterStep cfg st r).1 && r.isStdFor c m then 1 else 0) +
        admittedInBucket cfg (filterStep cfg st r).2 c m rs = 0
      rw [hstd, Bool.and_false, if_neg (by simp), ih _ r.time hch2 hmt]

/-- Core rate limit bound: over any run with non decreasing call times, the
number of admitted standard notifications for client c in minute bucket m,
plus the (capped) bucket count already accumulated, never exceeds the
configured per minute maximum. -/
theorem admittedInBucket_le (cfg : FilterConfig) (c : String) (m : Int) :
    ∀ (rs : List FilterReq) (st : FilterState) (v : ℚ),
      Chron v rs →
      admittedInBucket cfg st c m rs +
        min (st.counts c m) cfg.maxEarthquakesPerMinute ≤
        cfg.maxEarthquakesPerMinute := by
  intro rs
  induction rs with
  | nil =>
      intro st v _
      simp only [admittedInBucket]
      omega
  | cons r rs ih =>
      intro st v hch
      obtain ⟨hv, hch2⟩ := hch
      simp only [admittedInBucket]
      cases r with
      | alertEvent e c2 t =>
          have hstd : FilterReq.isStdFor (FilterReq.alertEvent e c2 t) c m = false := rfl
          rw [hstd]
          simp only [Bool.and_false, Bool.false_eq_true, if_false, filterStep]
          have hch3 : Chron (FilterReq.alertEvent e c2 t).time rs := hch2
          by_cases hb : e.magnitude.value < 4
          · simp only [shouldBroadcastAlert, if_pos hb]
            have := ih st _ hch3
            omega
          · simp only [shouldBroadcastAlert, if_neg hb]
            have h1 := ih (updateClientTracking st c2 t) _ hch3
            have h2 := updateClientTracking_counts_ge st c2 t c m
            omega
      | eqEvent e c2 t =>
          simp only [filterStep]
          have hch3 : Chron t rs := hch2
          by_cases h1 : passesMagnitudeFilter cfg e = true
          rotate_left
          · simp only [shouldBroadcastEarthquake, if_neg h1]
            simp only [Bool.false_and, Bool.false_eq_true, if_false]
            have := ih st _ hch3
            omega
          by_cases h2 : passesAgeFilter cfg e t = true
          rotate_left
          · simp only [shouldBroadcastEarthquake, if_pos h1, if_neg h2]
            simp only [Bool.false_and, Bool.false_eq_true, if_false]
            have := ih st _ hch3
            omega
          by_cases h3 : passesThrottleFilter cfg st c2 t = true
          rotate_left
          · simp only [shouldBroadcastEarthquake, if_pos h1, if_pos h2, if_neg h3]
            simp only [Bool.false_and, Bool.false_eq_true, if_false]
            have := ih st _ hch3
            omega
          by_cases hz : c = c2 ∧ m < minuteKey t - 2
          · -- the bucket is pruned by this call and the clock is already past
            -- bucket m, so nothing further lands in bucket m
            have hmt : m < minuteKey t := by omega
            have hstd : FilterReq.isStdFor (FilterReq.eqEvent e c2 t) c m = false := by
              simp only [FilterReq.isStdFor, decide_eq_false_iff_not]
              rintro ⟨-, h⟩
              omega
            rw [hstd]
            simp only [Bool.and_false, Bool.false_eq_true, if_false]
            rw [admittedInBucket_eq_zero cfg c m rs _ t hch3 hmt]
            omega
          · have hpr : (pruneClient st c2 (minuteKey t)).counts c m = st.counts c m := by
              rw [pruneClient_counts, if_neg hz]
            by_cases h4 : passesRateLimitCheck cfg (pruneClient st c2 (minuteKey t)) c2 t
              = true
            rotate_left
            · simp only [shouldBroadcastEarthquake, if_pos h1, if_pos h2, if_pos h3,
                if_neg h4]
              simp only [Bool.false_and, Bool.false_eq_true, if_false]
              have hihp := ih (pruneClient st c2 (minuteKey t)) _ hch3
              rw [hpr] at hihp
              omega
            · simp only [shouldBroadcastEarthquake, if_pos h1, if_pos h2, if_pos h3,
                if_pos h4]
              simp only [Bool.true_and]
              have hihu := ih (updateClientTracking (pruneClient st c2 (minuteKey t))
                c2 t) _ hch3
              by_cases hstd : c2 = c ∧ minuteKey t = m
              · rw [show FilterReq.isStdFor (FilterReq.eqEvent e c2 t) c m = true from
                  decide_eq_true hstd, if_pos rfl]
                have hlt : (pruneClient st c2 (minuteKey t)).counts c2 (minuteKey t) <
                    cfg.maxEarthquakesPerMinute := of_decide_eq_true h4
                rw [pruneClient_counts, if_neg (by omega)] at hlt
                rw [hstd.1, hstd.2] at hlt
                have hupd : (updateClientTracking (pruneClient st c2 (minuteKey t))
                    c2 t).counts c m =
                    (pruneClient st c2 (minuteKey t)).counts c m + 1 := by
                  rw [updateClientTracking_counts, if_pos ⟨hstd.1.symm, hstd.2.symm⟩]
                rw [hupd, hpr] at hihu
                omega
              · rw [show FilterReq.isStdFor (FilterReq.eqEvent e c2 t) c m = false by
                  simp only [FilterReq.isStdFor, decide_eq_false_iff_not]; exact hstd]
                simp only [Bool.and_false, Bool.false_eq_true, if_false]
                have hge := updateClientTracking_counts_ge
                  (pruneClient st c2 (minuteKey t)) c2 t c m
                rw [hpr] at hge
                omega

/-- Eleven high severity alert notifications for subscriber "a" at one
second spacing, all inside a single rolling 60 second window. -/
def elevenAlerts : List FilterReq :=
  [FilterReq.alertEvent quakeFive "a" 0,
   FilterReq.alertEvent quakeFive "a" 1,
   FilterReq.alertEvent quakeFive "a" 2,
   FilterReq.alertEvent quakeFive "a" 3,
   FilterReq.alertEvent quakeFive "a" 4,
   FilterReq.alertEvent quakeFive "a" 5,
   FilterReq.alertEvent quakeFive "a" 6,
   FilterReq.alertEvent quakeFive "a" 7,
   FilterReq.alertEvent quakeFive "a" 8,
   FilterReq.alertEvent quakeFive "a" 9,
   FilterReq.alertEvent quakeFive "a" 10]

/-- C3 counterexample: with the default configuration (maxPerMinute = 10)
the engine admits eleven notifications for one subscriber whose timestamps
all lie within ten seconds of each other, far more than ten in a rolling
60 second window, because high severity alerts bypass the rate limit. -/
theorem rate_limit_rolling_cex :
    filterDecisions defaultFilterConfig initFilterState elevenAlerts =
      List.replicate 11 true ∧
    elevenAlerts.map FilterReq.time = [0, 1, 2, 3, 4, 5, 6, 7, 8, 9, 10] ∧
    elevenAlerts.map FilterReq.client = List.replicate 11 "a" ∧
    defaultFilterConfig.maxEarthquakesPerMinute = 10 :=
  ⟨rfl, rfl, rfl, rfl⟩

/-- C3 amended: starting from a fresh filter state and running any sequence
of engine calls with non decreasing wall clock times, at most
maxEarthquakesPerMinute STANDARD notifications are admitted to one
subscriber within one fixed minute bucket; high severity alerts bypass the
rate limit check entirely (see the counterexample), and across two adjacent
fixed buckets a rolling 60 second window can still see more than
maxEarthquakesPerMinute standard admissions. -/
theorem rate_limit_per_bucket (cfg : FilterConfig) (rs : List FilterReq)
    (c : String) (m : Int) (v : ℚ) (hch : Chron v rs) :
    admittedInBucket cfg initFilterState c m rs ≤ cfg.maxEarthquakesPerMinute := by
  have h := admittedInBucket_le cfg c m rs initFilterState v hch
  have h0 : initFilterState.counts c m = 0 := rfl
  rw [h0] at h
  omega

/-- Witness for C3 amended: a concrete two call run. -/
theorem rate_limit_per_bucket_witness :
    admittedInBucket defaultFilterConfig initFilterState "a" 1
      [FilterReq.eqEvent quakeThree "a" 100, FilterReq.eqEvent quakeThree "a" 105] ≤
      defaultFilterConfig.maxEarthquakesPerMinute := by
  apply rate_limit_per_bucket defaultFilterConfig _ "a" 1 0
  show (0 : ℚ) ≤ 100 ∧ (100 : ℚ) ≤ 105 ∧ True
  norm_num

/-!
Connection Registry and Broadcaster: WebSocketManager
(src/infrastructure/external/websocket_manager.py). Connections and the two
channel subscription sets are string id collections; the filter service
reference is a boolean presence flag, with the filter state passed
alongside because it lives inside the WebSocketFilterService object.
-/

/-- Registry state of WebSocketManager: _connections keys,
_earthquake_subscribers, _alert_subscribers and whether set_filter_service
installed a filter service. -/
structure WsManagerState where
  connections : List String
  earthquakeSubscribers : List String
  alertSubscribers : List String
  hasFilterService : Bool
deriving DecidableEq, Repr

/-- Python set.add on a set embedded as a duplicate free list. -/
def addOnce (l : List String) (c : String) : List String :=
  if c ∈ l then l else l ++ [c]

/-- Outbound payloads relevant to the subscription protocol. -/
inductive OutMessage where
  | subscriptionConfirmed (sub : String)
  | errorReply (text : String)
deriving DecidableEq, Repr

/-- WebSocketManager.subscribe_to_earthquakes: only for a registered
connection; adds the client to the earthquake subscriber set and sends a
subscription_confirmed reply on the same connection. -/
def subscribeToEarthquakes (mgr : WsManagerState) (c : String) :
    WsManagerState × List (String × OutMessage) :=
  if c ∈ mgr.connections then
    ({ mgr with earthquakeSubscribers := addOnce mgr.earthquakeSubscribers c },
     [(c, OutMessage.subscriptionConfirmed "earthquakes")])
  else (mgr, [])

/-- WebSocketManager.subscribe_to_alerts. -/
def subscribeToAlerts (mgr : WsManagerState) (c : String) :
    WsManagerState × List (String × OutMessage) :=
  if c ∈ mgr.connections then
    ({ mgr with alertSubscribers := addOnce mgr.alertSubscribers c },
     [(c, OutMessage.subscriptionConfirmed "alerts")])
  else (mgr, [])

/-- Rendering of the action value inside the Python f string
"Unknown action: {action}"; a missing action field renders as None. -/
def pyShowAction : Option String → String
  | some s => s
  | none => "None"

/-- WebSocketManager.handle_message. The inbound message is given after
json.loads: none stands for a json decode failure, some act for a parsed
object whose action field (data.get of action) is act. Error replies go
through _send_to_client, which drops them for unregistered connections. -/
def handleMessage (mgr : WsManagerState) (c : String)
    (msg : Option (Option String)) : WsManagerState × List (String × OutMessage) :=
  match msg with
  | none =>
      (mgr, if c ∈ mgr.connections
        then [(c, OutMessage.errorReply "Invalid JSON message")] else [])
  | some act =>
      if act = some "subscribe_earthquakes" then subscribeToEarthquakes mgr c
      else if act = some "subscribe_alerts" then subscribeToAlerts mgr c
      else
        (mgr, if c ∈ mgr.connections
          then [(c, OutMessage.errorReply ("Unknown action: " ++ pyShowAction act))]
          else [])

/-- The 100 KiB size cap in WebSocketManager._send_to_client. -/
def maxMessageSize : ℕ := 100 * 1024

/-- What _send_to_client writes to the socket. -/
inductive SentPayload where
  | fullText (text : String)
  | sizeErrorNotice (size : ℕ)
deriving DecidableEq, Repr

/-- WebSocketManager._send_to_client: for a registered connection, measure
the utf-8 byte length of the serialized message text; send a short size
error notice instead when it exceeds the cap, the full text otherwise. -/
def sendToClient (connections : List String) (c : String)
    (messageText : String) : Option SentPayload :=
  if c ∈ connections then
    if maxMessageSize < messageText.utf8ByteSize then
      some (SentPayload.sizeErrorNotice messageText.utf8ByteSize)
    else some (SentPayload.fullText messageText)
  else none

/-- C7: every message sent to a registered connection is serialized first;
an encoded size above 100 KiB suppresses the full message and sends a size
error notice in its place, and any other message is sent unchanged. -/
theorem send_size_guard (connections : List String) (c : String)
    (text : String) (hc : c ∈ connections) :
    (maxMessageSize < text.utf8ByteSize →
      sendToClient connections c text = some (SentPayload.sizeErrorNotice
        text.utf8ByteSize) ∧
      sendToClient connections c text ≠ some (SentPayload.fullText text)) ∧
    (text.utf8ByteSize ≤ maxMessageSize →
      sendToClient connections c text = some (SentPayload.fullText text)) := by
  unfold sendToClient
  rw [if_pos hc]
  constructor
  · intro hbig
    rw [if_pos hbig]
    exact ⟨rfl, by simp⟩
  · intro hsmall
    rw [if_neg (by omega)]

/-- Witness for C7: a registered connection and a one byte message. -/
theorem send_size_guard_witness :
    sendToClient ["a"] "a" "x" = some (SentPayload.fullText "x") :=
  (send_size_guard ["a"] "a" "x" (by simp)).2 (by decide)

/-- C9 counterexample: a registered connection sending the action
subscribe_events from the spec receives the unknown action error reply and
is not subscribed to any channel; the action recognized by the code for the
events channel is subscribe_earthquakes. -/
theorem subscription_action_cex :
    handleMessage
      { connections := ["a"], earthquakeSubscribers := [],
        alertSubscribers := [], hasFilterService := false } "a"
      (some (some "subscribe_events")) =
    ({ connections := ["a"], earthquakeSubscribers := [],
       alertSubscribers := [], hasFilterService := false },
     [("a", OutMessage.errorReply "Unknown action: subscribe_events")]) := by
  decide

/-- C9 amended: for a registered connection, the action
subscribe_earthquakes subscribes it to the earthquakes channel and
subscribe_alerts subscribes it to the alerts channel, each acknowledged
with a subscription_confirmed reply; any other action value a leaves the
registry unchanged and receives the reply "Unknown action: a" on the same
connection. -/
theorem subscription_protocol (mgr : WsManagerState) (c : String)
    (hc : c ∈ mgr.connections) :
    (c ∈ (handleMessage mgr c (some (some "subscribe_earthquakes"))).1.earthquakeSubscribers ∧
      (handleMessage mgr c (some (some "subscribe_earthquakes"))).2 =
        [(c, OutMessage.subscriptionConfirmed "earthquakes")]) ∧
    (c ∈ (handleMessage mgr c (some (some "subscribe_alerts"))).1.alertSubscribers ∧
      (handleMessage mgr c (some (some "subscribe_alerts"))).2 =
        [(c, OutMessage.subscriptionConfirmed "alerts")]) ∧
    (∀ act : Option String, act ≠ some "subscribe_earthquakes" →
      act ≠ some "subscribe_alerts" →
      (handleMessage mgr c (some act)).1 = mgr ∧
      (handleMessage mgr c (some act)).2 =
        [(c, OutMessage.errorReply ("Unknown action: " ++ pyShowAction act))]) := by
  have hmem : ∀ l : List String, c ∈ addOnce l c := by
    intro l
    unfold addOnce
    split_ifs with h
    · exact h
    · simp
  refine ⟨⟨?_, ?_⟩, ⟨?_, ?_⟩, ?_⟩
  · show c ∈ (subscribeToEarthquakes mgr c).1.earthquakeSubscribers
    unfold subscribeToEarthquakes
    rw [if_pos hc]
    exact hmem _
  · show (subscribeToEarthquakes mgr c).2 = _
    unfold subscribeToEarthquakes
    rw [if_pos hc]
  · show c ∈ (subscribeToAlerts mgr c).1.alertSubscribers
    unfold subscribeToAlerts
    rw [if_pos hc]
    exact hmem _
  · show (subscribeToAlerts mgr c).2 = _
    unfold subscribeToAlerts
    rw [if_pos hc]
  · intro act h1 h2
    simp only [handleMessage]
    rw [if_neg h1, if_neg h2, if_pos hc]
    exact ⟨rfl, rfl⟩

/-- Witness for C9 amended: concrete registry with one connection. -/
theorem subscription_protocol_witness :
    "a" ∈ (handleMessage
      { connections := ["a"], earthquakeSubscribers := [],
        alertSubscribers := [], hasFilterService := false } "a"
      (some (some "subscribe_earthquakes"))).1.earthquakeSubscribers :=
  (subscription_protocol
    { connections := ["a"], earthquakeSubscribers := [],
      alertSubscribers := [], hasFilterService := false } "a" (by simp)).1.1

/-- Per client filtering loop of WebSocketManager.broadcast_earthquake_update:
should_broadcast_earthquake runs for each earthquake subscriber in order,
threading the mutable filter state, and the admitted clients are collected
as the recipients of the send. -/
def filterEarthquakeSubscribers (cfg : FilterConfig) (e : Earthquake)
    (now : ℚ) : List String → FilterState → List String × FilterState
  | [], st => ([], st)
  | c :: cs, st =>
      ((if (shouldBroadcastEarthquake cfg st e c now).1 then
          c :: (filterEarthquakeSubscribers cfg e now cs
            (shouldBroadcastEarthquake cfg st e c now).2).1
        else (filterEarthquakeSubscribers cfg e now cs
            (shouldBroadcastEarthquake cfg st e c now).2).1),
       (filterEarthquakeSubscribers cfg e now cs
          (shouldBroadcastEarthquake cfg st e c now).2).2)

/-- WebSocketManager.broadcast_earthquake_update: the engine is consulted
only when a source earthquake object is passed AND a filter service was
installed; otherwise the message goes to every earthquake subscriber.
Returns the recipients and the filter state after the call. -/
def broadcastEarthquakeUpdate (cfg : FilterConfig) (mgr : WsManagerState)
    (fs : FilterState) (sourceEvent : Option Earthquake) (now : ℚ) :
    List String × FilterState :=
  match sourceEvent with
  | some e =>
      if mgr.hasFilterService then
        filterEarthquakeSubscribers cfg e now mgr.earthquakeSubscribers fs
      else (mgr.earthquakeSubscribers, fs)
  | none => (mgr.earthquakeSubscribers, fs)

/-- The detected event broadcast of
EarthquakeEventHandlers.handle_earthquake_detected
(src/application/events/event_handlers.py): the handler calls
broadcast_earthquake_update(earthquake_data) WITHOUT passing the earthquake
object, so the broadcast takes the unfiltered branch. -/
def detectedPathBroadcast (cfg : FilterConfig) (mgr : WsManagerState)
    (fs : FilterState) (now : ℚ) : List String × FilterState :=
  broadcastEarthquakeUpdate cfg mgr fs none now

/-- A filter state in which subscriber "a" was last served at time 100. -/
def fsThrottledA : FilterState :=
  { lastBroadcast := fun c => if c = "a" then 100 else 0
    counts := fun _ _ => 0 }

/-- C1 counterexample: subscriber "a" is throttled one second after its
last admitted message, so the engine rejects a standard notification for it
at time 101; yet the orchestration path detected event broadcast delivers
to "a" anyway, because handle_earthquake_detected never hands the source
earthquake to broadcast_earthquake_update even with a filter service
installed. -/
theorem broadcast_engine_bypass_cex :
    (shouldBroadcastEarthquake defaultFilterConfig fsThrottledA quakeThree
      "a" 101).1 = false ∧
    (detectedPathBroadcast defaultFilterConfig
      { connections := ["a"], earthquakeSubscribers := ["a"],
        alertSubscribers := [], hasFilterService := true }
      fsThrottledA 101).1 = ["a"] := by
  constructor
  · have hth : passesThrottleFilter defaultFilterConfig fsThrottledA "a" 101 = false := by
      simp only [passesThrottleFilter, fsThrottledA, if_pos rfl,
        defaultFilterConfig, decide_eq_false_iff_not]
      norm_num
    simp only [shouldBroadcastEarthquake, hth, Bool.false_eq_true, if_false]
    split_ifs <;> rfl
  · rfl

/-- Recipients of the filtering loop split across list concatenation, with
the filter state threaded through the first block. -/
theorem filterEarthquakeSubscribers_append (cfg : FilterConfig)
    (e : Earthquake) (now : ℚ) :
    ∀ (l1 l2 : List String) (fs : FilterState),
      filterEarthquakeSubscribers cfg e now (l1 ++ l2) fs =
        ((filterEarthquakeSubscribers cfg e now l1 fs).1 ++
          (filterEarthquakeSubscribers cfg e now l2
            (filterEarthquakeSubscribers cfg e now l1 fs).2).1,
         (filterEarthquakeSubscribers cfg e now l2
            (filterEarthquakeSubscribers cfg e now l1 fs).2).2) := by
  intro l1
  induction l1 with
  | nil => intro l2 fs; simp [filterEarthquakeSubscribers]
  | cons c cs ih =>
      intro l2 fs
      simp only [List.cons_append, filterEarthquakeSubscribers, List.append_eq]
      rw [ih l2 (shouldBroadcastEarthquake cfg fs e c now).2]
      split_ifs <;> simp

/-- Membership in the admitted recipients of one broadcast is exactly a
sequential admission by the engine at the position of the subscriber. -/
theorem mem_filterEarthquakeSubscribers (cfg : FilterConfig) (e : Earthquake)
    (now : ℚ) (c : String) :
    ∀ (subs : List String) (fs : FilterState),
      (c ∈ (filterEarthquakeSubscribers cfg e now subs fs).1 ↔
        ∃ l1 l2, subs = l1 ++ c :: l2 ∧
          (shouldBroadcastEarthquake cfg
            (filterEarthquakeSubscribers cfg e now l1 fs).2 e c now).1 = true) := by
  intro subs
  induction subs with
  | nil =>
      intro fs
      simp only [filterEarthquakeSubscribers, List.not_mem_nil, false_iff]
      rintro ⟨l1, l2, h, -⟩
      exact (List.append_ne_nil_of_right_ne_nil l1 (List.cons_ne_nil c l2)) h.symm
  | cons c0 cs ih =>
      intro fs
      constructor
      · intro hmem
        simp only [filterEarthquakeSubscribers] at hmem
        by_cases hb : (shouldBroadcastEarthquake cfg fs e c0 now).1 = true
        · rw [if_pos hb] at hmem
          rcases List.mem_cons.mp hmem with hceq | htail
          · subst hceq
            exact ⟨[], cs, rfl, by simpa [filterEarthquakeSubscribers] using hb⟩
          · obtain ⟨l1, l2, hsplit, hadm⟩ := (ih _).mp htail
            exact ⟨c0 :: l1, l2, by rw [hsplit, List.cons_append], by
              simpa [filterEarthquakeSubscribers] using hadm⟩
        · rw [if_neg hb] at hmem
          obtain ⟨l1, l2, hsplit, hadm⟩ := (ih _).mp hmem
          exact ⟨c0 :: l1, l2, by rw [hsplit, List.cons_append], by
            simpa [filterEarthquakeSubscribers] using hadm⟩
      · rintro ⟨l1, l2, hsplit, hadm⟩
        cases l1 with
        | nil =>
            simp only [List.nil_append] at hsplit
            cases hsplit
            simp only [filterEarthquakeSubscribers] at hadm ⊢
            rw [if_pos hadm]
            exact List.mem_cons_self _ _
        | cons d ds =>
            simp only [List.cons_append, List.cons.injEq] at hsplit
            obtain ⟨hd, hrest⟩ := hsplit
            subst hd
            subst hrest
            have htail : c ∈ (filterEarthquakeSubscribers cfg e now (ds ++ c :: l2)
                (shouldBroadcastEarthquake cfg fs e c0 now).2).1 := by
              apply (ih _).mpr
              exact ⟨ds, l2, rfl, by
                simpa [filterEarthquakeSubscribers] using hadm⟩
            simp only [filterEarthquakeSubscribers]
            split_ifs with hb
            · exact List.mem_cons_of_mem _ htail
            · exact htail

/-- C1 amended: the engine gates a broadcast only when the broadcast is
handed the source earthquake and a filter service is installed: a
subscriber then receives the message exactly when
should_broadcast_earthquake admits it at its position in the iteration
order. When the source event is omitted, as the orchestration path
detected event broadcast does, every earthquake subscriber receives the
message with no engine involvement. -/
theorem broadcast_engine_gating (cfg : FilterConfig) (mgr : WsManagerState)
    (fs : FilterState) (e : Earthquake) (now : ℚ) (c : String)
    (hfs : mgr.hasFilterService = true) :
    (c ∈ (broadcastEarthquakeUpdate cfg mgr fs (some e) now).1 ↔
      ∃ l1 l2, mgr.earthquakeSubscribers = l1 ++ c :: l2 ∧
        (shouldBroadcastEarthquake cfg
          (filterEarthquakeSubscribers cfg e now l1 fs).2 e c now).1 = true) ∧
    (broadcastEarthquakeUpdate cfg mgr fs none now).1 =
      mgr.earthquakeSubscribers := by
  constructor
  · have hbe : broadcastEarthquakeUpdate cfg mgr fs (some e) now =
        filterEarthquakeSubscribers cfg e now mgr.earthquakeSubscribers fs := by
      simp only [broadcastEarthquakeUpdate, hfs, if_true]
    rw [hbe]
    exact mem_filterEarthquakeSubscribers cfg e now c mgr.earthquakeSubscribers fs
  · rfl

/-- Witness for C1 amended: a concrete registry with one subscriber and an
installed filter service. -/
theorem broadcast_engine_gating_witness :
    ("a" ∈ (broadcastEarthquakeUpdate defaultFilterConfig
      { connections := ["a"], earthquakeSubscribers := ["a"],
        alertSubscribers := [], hasFilterService := true }
      initFilterState (some quakeThree) 100).1 ↔
      ∃ l1 l2, (["a"] : List String) = l1 ++ "a" :: l2 ∧
        (shouldBroadcastEarthquake defaultFilterConfig
          (filterEarthquakeSubscribers defaultFilterConfig quakeThree 100 l1
            initFilterState).2 quakeThree "a" 100).1 = true) ∧
    (broadcastEarthquakeUpdate defaultFilterConfig
      { connections := ["a"], earthquakeSubscribers := ["a"],
        alertSubscribers := [], hasFilterService := true }
      initFilterState none 100).1 = ["a"] :=
  broadcast_engine_gating defaultFilterConfig
    { connections := ["a"], earthquakeSubscribers := ["a"],
      alertSubscribers := [], hasFilterService := true }
    initFilterState quakeThree 100 "a" rfl

/-!
Domain events and their publication
(src/domain/events, src/application/use_cases/ingest_earthquake_data.py,
src/application/services/earthquake_event_orchestrator.py,
src/application/events/event_handlers.py).
-/

/-- Embedding of the EarthquakeDetected frozen dataclass
(src/domain/events/earthquake_detected.py); the timestamp field defaults to
the wall clock at construction and is not modelled. -/
structure EarthquakeDetectedEvent where
  earthquakeId : String
  occurredAt : ℚ
  magnitude : ℚ
  latitude : ℚ
  longitude : ℚ
  depth : ℚ
  source : String
deriving DecidableEq, Repr

/-- Embedding of the HighMagnitudeAlert frozen dataclass
(src/domain/events/high_magnitude_alert.py); the timestamp field defaults
to the wall clock at construction and is not modelled. -/
structure HighMagnitudeAlertEvent where
  earthquakeId : String
  magnitude : ℚ
  alertLevel : String
  latitude : ℚ
  longitude : ℚ
  affectedRadiusKm : ℚ
  requiresImmediateResponse : Bool
deriving DecidableEq, Repr

/-- The two notification kinds an ingested earthquake can produce. -/
inductive DomainEvent where
  | detected (d : EarthquakeDetectedEvent)
  | alert (a : HighMagnitudeAlertEvent)
deriving DecidableEq, Repr

/-- The EarthquakeDetected payload built from an earthquake entity, as both
publication paths construct it field by field. -/
def detectedEventOf (e : Earthquake) : EarthquakeDetectedEvent :=
  { earthquakeId := e.earthquakeId
    occurredAt := e.occurredAt
    magnitude := e.magnitude.value
    latitude := e.location.latitude
    longitude := e.location.longitude
    depth := e.location.depth
    source := e.source }

/-- IngestEarthquakeDataUseCase._publish_events: always publish the
detected event; when magnitude.is_significant() also publish a
HighMagnitudeAlert with the hardcoded affected_radius_km=50.0 noted as
Default radius in the source, and
requires_immediate_response=earthquake.requires_immediate_alert(). -/
def publishEventsIngest (nearPop : Location → Bool) (e : Earthquake) :
    List DomainEvent :=
  DomainEvent.detected (detectedEventOf e) ::
    (if e.magnitude.is_significant then
      [DomainEvent.alert
        { earthquakeId := e.earthquakeId
          magnitude := e.magnitude.value
          alertLevel := e.magnitude.get_alert_level
          latitude := e.location.latitude
          longitude := e.location.longitude
          affectedRadiusKm := 50
          requiresImmediateResponse := e.requires_immediate_alert nearPop }]
    else [])

/-- A Python runtime error raised while an event is being constructed. -/
inductive PyError where
  | attributeError (attrName : String)
  | typeError (message : String)
deriving DecidableEq, Repr

/-- The attribute read earthquake.title performed by
EarthquakeEventOrchestrator._publish_earthquake_detected: the Earthquake
dataclass declares no title field, so the read raises AttributeError unless
a caller attached the attribute dynamically (none does in the source). -/
def Earthquake.titleAttr (e : Earthquake) : Except PyError String :=
  match e.title with
  | some t => Except.ok t
  | none => Except.error (PyError.attributeError "title")

/-- Constructing EarthquakeDetected with the keyword set the orchestrator
passes: the declared payload fields plus a title keyword. The frozen
dataclass declares no title parameter, so this call raises TypeError no
matter what values are supplied. -/
def mkEarthquakeDetectedWithTitle (_payload : EarthquakeDetectedEvent)
    (_titleValue : String) : Except PyError EarthquakeDetectedEvent :=
  Except.error (PyError.typeError "unexpected keyword argument title")

/-- EarthquakeEventOrchestrator._publish_earthquake_detected: evaluate the
keyword arguments (which reads earthquake.title) and construct the
EarthquakeDetected event with the extra title keyword; either step raises. -/
def orchestratorPublishDetected (e : Earthquake) :
    Except PyError EarthquakeDetectedEvent :=
  (e.titleAttr).bind (fun t => mkEarthquakeDetectedWithTitle (detectedEventOf e) t)

/-- The HighMagnitudeAlert payload
EarthquakeEventOrchestrator._publish_high_magnitude_alert would build (all
its keyword arguments are declared fields): the computed affected radius
and the requires_immediate_alert flag from get_impact_assessment(). -/
def orchestratorAlertOf (nearPop : Location → Bool) (e : Earthquake) :
    HighMagnitudeAlertEvent :=
  { earthquakeId := e.earthquakeId
    magnitude := e.magnitude.value
    alertLevel := e.magnitude.get_alert_level
    latitude := e.location.latitude
    longitude := e.location.longitude
    affectedRadiusKm := e.calculate_affected_radius_km
    requiresImmediateResponse := e.requires_immediate_alert nearPop }

/-- EarthquakeEventOrchestrator.publish_earthquake_events: publish the
detected event first, then the alert when requires_immediate_alert() holds.
The detected publication raises on every input (see
orchestratorPublishDetected), so the method propagates that error before
any event is published. -/
def publishEventsOrchestrator (nearPop : Location → Bool) (e : Earthquake) :
    Except PyError (List DomainEvent) :=
  (orchestratorPublishDetected e).bind (fun d =>
    if e.requires_immediate_alert nearPop then
      Except.ok [DomainEvent.detected d,
        DomainEvent.alert (orchestratorAlertOf nearPop e)]
    else Except.ok [DomainEvent.detected d])

/-- The alert payloads among a list of published events. -/
def alertsOf (evs : List DomainEvent) : List HighMagnitudeAlertEvent :=
  evs.filterMap (fun ev => match ev with
    | DomainEvent.alert a => some a
    | DomainEvent.detected _ => none)

/-- The detected payloads among a list of published events. -/
def detectedsOf (evs : List DomainEvent) : List EarthquakeDetectedEvent :=
  evs.filterMap (fun ev => match ev with
    | DomainEvent.detected d => some d
    | DomainEvent.alert _ => none)

/-- A magnitude 6.0 earthquake at a location far from every populated area,
10 km deep. -/
def quakeSix : Earthquake :=
  { location := { latitude := 0, longitude := 0, depth := 10 }
    magnitude := { value := 6 }
    occurredAt := 0
    earthquakeId := "Q6" }

/-- C5 counterexample: on the ingestion publication path a magnitude 6.0
event NOT near a populated area still emits a HighSeverityAlert (the claim
requires the population proximity conjunction), and the emitted radius is
the hardcoded 50.0, not the formula value 6.0 x 20 x max(0.1, 1 - 10/100)
= 108. -/
theorem alert_emission_cex :
    quakeSix.requires_immediate_alert (fun _ => false) = false ∧
    alertsOf (publishEventsIngest (fun _ => false) quakeSix) =
      [{ earthquakeId := "Q6", magnitude := 6, alertLevel := "HIGH",
         latitude := 0, longitude := 0, affectedRadiusKm := 50,
         requiresImmediateResponse := false }] ∧
    quakeSix.calculate_affected_radius_km = 108 ∧
    (108 : ℚ) ≠ 50 := by
  refine ⟨by decide, by decide, ?_, by norm_num⟩
  unfold Earthquake.calculate_affected_radius_km quakeSix
  rw [max_eq_right (by norm_num)]
  norm_num

/-- C5 amended: the ingestion path emits a HighSeverityAlert iff the
magnitude is significant (population proximity is NOT consulted for the
emission decision), with a hardcoded affected radius of 50.0 km; only the
requires-immediate-response flag equals the significance and proximity
conjunction, and exactly one detected notification accompanies it. The
orchestrator path never emits anything: its detected publication reads the
undeclared attribute earthquake.title (AttributeError when absent) and
passes a title keyword the EarthquakeDetected dataclass does not declare
(TypeError when present), so publish_earthquake_events raises on every
input before any event is published. -/
theorem alert_emission_rules (nearPop : Location → Bool) (e : Earthquake) :
    (alertsOf (publishEventsIngest nearPop e) ≠ [] ↔
      e.magnitude.is_significant = true) ∧
    (∀ a ∈ alertsOf (publishEventsIngest nearPop e),
      a.affectedRadiusKm = 50 ∧
      a.requiresImmediateResponse =
        (e.magnitude.is_significant && nearPop e.location)) ∧
    (detectedsOf (publishEventsIngest nearPop e) = [detectedEventOf e]) ∧
    (e.title = none →
      publishEventsOrchestrator nearPop e =
        Except.error (PyError.attributeError "title")) ∧
    (∀ t : String, e.title = some t →
      publishEventsOrchestrator nearPop e =
        Except.error (PyError.typeError "unexpected keyword argument title")) ∧
    (∀ evs : List DomainEvent,
      publishEventsOrchestrator nearPop e ≠ Except.ok evs) := by
  refine ⟨?_, ?_, ?_, ?_, ?_, ?_⟩
  · unfold publishEventsIngest
    split_ifs with h
    · simpa [alertsOf] using h
    · simpa [alertsOf] using h
  · intro a ha
    unfold publishEventsIngest at ha
    split_ifs at ha with h
    · simp only [alertsOf, List.filterMap_cons, List.filterMap_nil] at ha
      simp only [List.mem_singleton] at ha
      subst ha
      exact ⟨rfl, rfl⟩
    · simp [alertsOf] at ha
  · unfold publishEventsIngest
    split_ifs <;> simp [detectedsOf]
  · intro h
    unfold publishEventsOrchestrator orchestratorPublishDetected
      Earthquake.titleAttr
    rw [h]
    rfl
  · intro t h
    unfold publishEventsOrchestrator orchestratorPublishDetected
      Earthquake.titleAttr mkEarthquakeDetectedWithTitle
    rw [h]
    rfl
  · intro evs
    unfold publishEventsOrchestrator orchestratorPublishDetected
      Earthquake.titleAttr mkEarthquakeDetectedWithTitle
    cases htitle : e.title <;> simp [Except.bind]

/-- Witness for C5 amended: evaluates the characterization on the concrete
magnitude 6.0 quake with an always-false populated area predicate,
including the radius and flag of the concrete emitted alert and the
concrete AttributeError of the orchestrator path. -/
theorem alert_emission_rules_witness :
    alertsOf (publishEventsIngest (fun _ => false) quakeSix) ≠ [] ∧
    ({ earthquakeId := "Q6", magnitude := 6, alertLevel := "HIGH",
       latitude := 0, longitude := 0, affectedRadiusKm := 50,
       requiresImmediateResponse := false } : HighMagnitudeAlertEvent).affectedRadiusKm
      = 50 ∧
    ({ earthquakeId := "Q6", magnitude := 6, alertLevel := "HIGH",
       latitude := 0, longitude := 0, affectedRadiusKm := 50,
       requiresImmediateResponse := false } : HighMagnitudeAlertEvent).requiresImmediateResponse
      = (quakeSix.magnitude.is_significant && false) ∧
    publishEventsOrchestrator (fun _ => false) quakeSix =
      Except.error (PyError.attributeError "title") := by
  have h := alert_emission_rules (fun _ => false) quakeSix
  have ha := h.2.1
    { earthquakeId := "Q6", magnitude := 6, alertLevel := "HIGH",
      latitude := 0, longitude := 0, affectedRadiusKm := 50,
      requiresImmediateResponse := false } (by decide)
  exact ⟨h.1.mpr rfl, ha.1, ha.2, h.2.2.2.1 rfl⟩

/-- Outcome of the post persist re-fetch find_by_id in
EarthquakeEventHandlers.handle_earthquake_detected: the call can return an
entity, return nothing, or raise. -/
inductive FetchOutcome where
  | ok (found : Option Earthquake)
  | raised
deriving DecidableEq, Repr

/-- The detected event broadcast payload the handler sends, when any. -/
inductive DetectedBroadcast where
  | fromDb (e : Earthquake)
  | fromEvent (ev : EarthquakeDetectedEvent)
deriving DecidableEq, Repr

/-- EarthquakeEventHandlers.handle_earthquake_detected, reduced to its
broadcast decision: with a fetched entity it broadcasts the database state;
when find_by_id returns None it only logs a warning and broadcasts NOTHING;
only when the try block raises does it fall back to broadcasting the
in-flight event payload. -/
def handleDetectedBroadcast (ev : EarthquakeDetectedEvent)
    (fetch : FetchOutcome) : Option DetectedBroadcast :=
  match fetch with
  | FetchOutcome.ok (some e) => some (DetectedBroadcast.fromDb e)
  | FetchOutcome.ok none => none
  | FetchOutcome.raised => some (DetectedBroadcast.fromEvent ev)

/-- The concrete detected event for quakeFive. -/
def evFive : EarthquakeDetectedEvent := detectedEventOf quakeFive

/-- C6 counterexample: when the post persist re-fetch returns nothing the
handler drops the detected notification instead of broadcasting the
original in-flight event object as the claim requires. -/
theorem refetch_fallback_cex :
    handleDetectedBroadcast evFive (FetchOutcome.ok none) = none ∧
    handleDetectedBroadcast evFive (FetchOutcome.ok none) ≠
      some (DetectedBroadcast.fromEvent evFive) := by
  exact ⟨rfl, by simp [handleDetectedBroadcast]⟩

/-- C6 amended: the fallback broadcast of the original in-flight event
happens exactly when the re-fetch RAISES; a re-fetch that succeeds but
returns nothing produces no broadcast at all (only a warning log), and a
successful re-fetch broadcasts the database entity. -/
theorem refetch_fallback_rules (ev : EarthquakeDetectedEvent) :
    handleDetectedBroadcast ev FetchOutcome.raised =
      some (DetectedBroadcast.fromEvent ev) ∧
    handleDetectedBroadcast ev (FetchOutcome.ok none) = none ∧
    (∀ e : Earthquake, handleDetectedBroadcast ev (FetchOutcome.ok (some e)) =
      some (DetectedBroadcast.fromDb e)) :=
  ⟨rfl, rfl, fun _ => rfl⟩

/-!
Persistence and the ingestion use case
(src/infrastructure/repositories/postgresql_earthquake_repository.py,
src/application/use_cases/ingest_earthquake_data.py). The database is a
list of rows; exceptions have no pure counterpart, so the error counter of
the result stays 0 in the embedding.
-/

/-- String form of a magnitude scale, as stored by the repository. -/
def MagnitudeScale.toStr : MagnitudeScale → String
  | MagnitudeScale.richter => "richter"
  | MagnitudeScale.moment => "moment"
  | MagnitudeScale.bodyWave => "body_wave"
  | MagnitudeScale.surfaceWave => "surface_wave"

/-- A persisted earthquake row (EarthquakeModel columns the core reads). -/
structure RepoRow where
  id : String
  latitude : ℚ
  longitude : ℚ
  depth : ℚ
  magnitudeValue : ℚ
  magnitudeScale : String
  occurredAt : ℚ
  source : String
  externalId : Option String
  isReviewed : Bool
deriving DecidableEq, Repr

/-- The repository state: the earthquakes table. -/
structure RepoState where
  rows : List RepoRow
deriving DecidableEq, Repr

/-- The row the repository save builds from an entity. -/
def rowOfEarthquake (e : Earthquake) : RepoRow :=
  { id := e.earthquakeId
    latitude := e.location.latitude
    longitude := e.location.longitude
    depth := e.location.depth
    magnitudeValue := e.magnitude.value
    magnitudeScale := e.magnitude.scale.toStr
    occurredAt := e.occurredAt
    source := e.source
    externalId := e.externalId
    isReviewed := e.isReviewed }

/-- PostgreSQLEarthquakeRepository.save: when the entity carries a truthy
external_id and a row with that external_id already exists, return the
existing row id WITHOUT inserting; otherwise insert a new row keyed by the
entity id and return that id. -/
def repoSave (st : RepoState) (e : Earthquake) : String × RepoState :=
  if truthyExternalId e.externalId then
    match st.rows.find? (fun r => r.externalId == e.externalId) with
    | some existing => (existing.id, st)
    | none => (e.earthquakeId, { rows := st.rows ++ [rowOfEarthquake e] })
  else (e.earthquakeId, { rows := st.rows ++ [rowOfEarthquake e] })

/-- PostgreSQLEarthquakeRepository.find_by_id. -/
def repoFindById (st : RepoState) (i : String) : Option RepoRow :=
  st.rows.find? (fun r => r.id == i)

/-- Embedding of the IngestionResult dataclass. -/
structure IngestionResult where
  totalFetched : ℕ
  newEarthquakes : ℕ
  updatedEarthquakes : ℕ
  errors : ℕ
  earthquakeIds : List String
deriving DecidableEq, Repr

/-- The per record loop of IngestEarthquakeDataUseCase.execute: the
existence check consults find_by_id with the ENTITY id (the source comment
notes there is no find_by_external_id), only for entities with a truthy
external_id; a hit counts as updated and skips; otherwise the record is
saved, counted as new, its returned id collected, and its domain events
published. Returns (new, updated, ids, repository, published events). -/
def ingestLoop (nearPop : Location → Bool) :
    List Earthquake → RepoState → ℕ × ℕ × List String × RepoState × List DomainEvent
  | [], repo => (0, 0, [], repo, [])
  | e :: rest, repo =>
      if truthyExternalId e.externalId && (repoFindById repo e.earthquakeId).isSome then
        match ingestLoop nearPop rest repo with
        | (n, u, ids, repo2, evs) => (n, u + 1, ids, repo2, evs)
      else
        match repoSave repo e with
        | (savedId, repo1) =>
            match ingestLoop nearPop rest repo1 with
            | (n, u, ids, repo2, evs) =>
                (n + 1, u, savedId :: ids, repo2, publishEventsIngest nearPop e ++ evs)

/-- IngestEarthquakeDataUseCase.execute, assembling the IngestionResult. -/
def ingestExecute (nearPop : Location → Bool) (repo : RepoState)
    (eqs : List Earthquake) : IngestionResult × RepoState × List DomainEvent :=
  match ingestLoop nearPop eqs repo with
  | (n, u, ids, repo2, evs) =>
      ({ totalFetched := eqs.length
         newEarthquakes := n
         updatedEarthquakes := u
         errors := 0
         earthquakeIds := ids }, repo2, evs)

/-- A raw record with external id X parsed to entity id A. -/
def eqExtA : Earthquake :=
  { location := { latitude := 1, longitude := 2, depth := 10 }
    magnitude := { value := 3 }
    occurredAt := 0
    earthquakeId := "A"
    externalId := some "X" }

/-- The same raw record re-parsed on a later run: same external id X, fresh
entity id B. -/
def eqExtB : Earthquake :=
  { location := { latitude := 1, longitude := 2, depth := 10 }
    magnitude := { value := 3 }
    occurredAt := 0
    earthquakeId := "B"
    externalId := some "X" }

/-- The repository after the first ingestion run of the record. -/
def repoAfterFirstIngest : RepoState :=
  (ingestExecute (fun _ => false) { rows := [] } [eqExtA]).2.1

/-- C4 counterexample: re-running the ingestion use case on the same raw
record (same external id X, fresh entity id B) adds no second row, but the
run does NOT count the record as a duplicate: it reports it as new and
publishes its notifications a second time. -/
theorem ingest_idempotence_cex :
    (ingestExecute (fun _ => false) repoAfterFirstIngest [eqExtB]).1.newEarthquakes
      = 1 ∧
    (ingestExecute (fun _ => false) repoAfterFirstIngest [eqExtB]).1.updatedEarthquakes
      = 0 ∧
    (ingestExecute (fun _ => false) repoAfterFirstIngest [eqExtB]).2.2 ≠ [] ∧
    (ingestExecute (fun _ => false) repoAfterFirstIngest [eqExtB]).2.1.rows.length
      = repoAfterFirstIngest.rows.length ∧
    repoAfterFirstIngest.rows.length = 1 := by
  refine ⟨rfl, rfl, by decide, rfl, rfl⟩

/-- C4 amended: when the ingestion use case processes a record whose truthy
external id is already persisted under a DIFFERENT entity id, the
repository save deduplicates by external id so no second row is added, but
the use case reports the record as new (not as a duplicate) and publishes
its notifications again; the duplicate count is driven only by an
entity id hit. -/
theorem ingest_dedup_by_external_id (nearPop : Location → Bool)
    (repo : RepoState) (e : Earthquake)
    (htr : truthyExternalId e.externalId = true)
    (hrow : (repo.rows.find? (fun r => r.externalId == e.externalId)).isSome = true)
    (hid : repoFindById repo e.earthquakeId = none) :
    (ingestExecute nearPop repo [e]).2.1 = repo ∧
    (ingestExecute nearPop repo [e]).1.newEarthquakes = 1 ∧
    (ingestExecute nearPop repo [e]).1.updatedEarthquakes = 0 ∧
    (ingestExecute nearPop repo [e]).2.2 = publishEventsIngest nearPop e ∧
    (ingestExecute nearPop repo [e]).2.2 ≠ [] := by
  obtain ⟨r, hr⟩ := Option.isSome_iff_exists.mp hrow
  have hcond : (truthyExternalId e.externalId &&
      (repoFindById repo e.earthquakeId).isSome) = false := by
    rw [hid]
    simp
  have hsave : repoSave repo e = (r.id, repo) := by
    unfold repoSave
    rw [if_pos htr, hr]
  have hloop : ingestLoop nearPop [e] repo =
      (1, 0, [r.id], repo, publishEventsIngest nearPop e ++ []) := by
    unfold ingestLoop
    rw [hcond]
    simp only [Bool.false_eq_true, if_false, hsave]
    rfl
  have hexec : ingestExecute nearPop repo [e] =
      ({ totalFetched := 1, newEarthquakes := 1, updatedEarthquakes := 0,
         errors := 0, earthquakeIds := [r.id] }, repo,
        publishEventsIngest nearPop e ++ []) := by
    unfold ingestExecute
    rw [hloop]
    rfl
  rw [hexec]
  refine ⟨rfl, rfl, rfl, by simp, ?_⟩
  simp only [List.append_nil]
  unfold publishEventsIngest
  split_ifs <;> simp

/-- Witness for C4 amended: the concrete second run of the same record. -/
theorem ingest_dedup_by_external_id_witness :
    (ingestExecute (fun _ => false) repoAfterFirstIngest [eqExtB]).2.1 =
      repoAfterFirstIngest ∧
    (ingestExecute (fun _ => false) repoAfterFirstIngest [eqExtB]).1.newEarthquakes
      = 1 := by
  have h := ingest_dedup_by_external_id (fun _ => false) repoAfterFirstIngest
    eqExtB (by decide) (by decide) (by decide)
  exact ⟨h.1, h.2.1⟩

/-!
Scheduler: SchedulerService
(src/infrastructure/scheduler/scheduler_service.py). APScheduler job
registration is embedded as an append to a job list; the execution policy
kwargs of add_job become fields of the registered job.
-/

/-- The registered job record with its execution policy. -/
structure ScheduledJob where
  id : String
  name : String
  intervalMinutes : ℚ
  maxInstances : ℕ
  coalesce : Bool
  misfireGraceTime : ℕ
deriving DecidableEq, Repr

/-- SchedulerService state: the scheduler job table and the _jobs_added
guard flag. -/
structure SchedulerState where
  jobs : List ScheduledJob
  jobsAdded : Bool
deriving DecidableEq, Repr

/-- A fresh SchedulerService. -/
def initSchedulerState : SchedulerState := { jobs := [], jobsAdded := false }

/-- The job add_usgs_ingestion_job registers: id usgs_ingestion,
max_instances=1, coalesce=True, misfire_grace_time=300, at the configured
interval (default 30 minutes). -/
def usgsIngestionJob (interval : ℚ) : ScheduledJob :=
  { id := "usgs_ingestion"
    name := "USGS Earthquake Data Ingestion"
    intervalMinutes := interval
    maxInstances := 1
    coalesce := true
    misfireGraceTime := 300 }

/-- SchedulerService.add_usgs_ingestion_job: an early return when
_jobs_added is already set; otherwise register the job and set the flag. -/
def addUsgsIngestionJob (interval : ℚ) (s : SchedulerState) : SchedulerState :=
  if s.jobsAdded then s
  else { jobs := s.jobs ++ [usgsIngestionJob interval], jobsAdded := true }

/-- A second consecutive setup call changes nothing, from any state. -/
theorem addUsgsIngestionJob_idem (interval : ℚ) (s : SchedulerState) :
    addUsgsIngestionJob interval (addUsgsIngestionJob interval s) =
      addUsgsIngestionJob interval s := by
  by_cases h : s.jobsAdded <;> simp [addUsgsIngestionJob, h]

/-- C10: scheduler setup is idempotent: n consecutive setup calls on a
fresh scheduler service leave exactly the state of one call, the ingestion
job is registered exactly once, carrying max_instances=1, coalesce and the
300 second misfire grace window, and every call after the first changes
nothing. -/
theorem scheduler_setup_idempotent (interval : ℚ) (n : ℕ) (hn : 1 ≤ n) :
    (addUsgsIngestionJob interval)^[n] initSchedulerState =
      addUsgsIngestionJob interval initSchedulerState ∧
    ((addUsgsIngestionJob interval)^[n] initSchedulerState).jobs =
      [usgsIngestionJob interval] ∧
    (usgsIngestionJob interval).maxInstances = 1 ∧
    (usgsIngestionJob interval).coalesce = true ∧
    (usgsIngestionJob interval).misfireGraceTime = 300 := by
  have hiter : ∀ k : ℕ, 1 ≤ k →
      (addUsgsIngestionJob interval)^[k] initSchedulerState =
        addUsgsIngestionJob interval initSchedulerState := by
    intro k hk
    induction k with
    | zero => omega
    | succ k ih =>
        rcases Nat.eq_or_lt_of_le hk with h1 | h2
        · rw [← h1]
          rfl
        · have hk1 : 1 ≤ k := by omega
          rw [Function.iterate_succ_apply', ih hk1,
            addUsgsIngestionJob_idem]
  refine ⟨hiter n hn, ?_, rfl, rfl, rfl⟩
  rw [hiter n hn]
  rfl

/-- Witness for C10: three consecutive setup calls. -/
theorem scheduler_setup_idempotent_witness :
    (addUsgsIngestionJob 30)^[3] initSchedulerState =
      addUsgsIngestionJob 30 initSchedulerState ∧
    ((addUsgsIngestionJob 30)^[3] initSchedulerState).jobs =
      [usgsIngestionJob 30] := by
  have h := scheduler_setup_idempotent 30 3 (by norm_num)
  exact ⟨h.1, h.2.1⟩
